import Mathlib

/-!
Verification of the PixelEye window-state cache / mode-transition subsystem.

The definitions below are a shallow embedding of the TypeScript source:
  - `StorageService.get` / `StorageService.set` (src/utils/StorageService.ts):
    a key-value store; modelled as a function from keys to optional values.
    Both catch their own errors, so at this level they are total.
  - the `useWindowCache` hook (`saveMainWindowState`, `loadCompareWindowState`,
    `enterCompareMode`, `exitCompareMode`);
  - the App-level handlers `handleEnterCompareMode` / `handleExitCompareMode`;
  - `toggleAlwaysOnTop` of `useWindowManager`;
  - `generateImageId`, `addToRecentImages`, `handleQuickSwitch`,
    `handleRemoveRecentImage`, `saveRecentImagesToStorage` (recent-image list).

Native window calls (`get_window_size`, `get_window_position`,
`set_window_size`, `set_window_position`, `set_always_on_top`) go through
Tauri's `invoke` and may reject; rejection is modelled by a schedule of
outcomes (`sched : List Bool`) consumed one entry per native call, the empty
schedule meaning every call succeeds.  A thrown rejection lands in the
JavaScript `catch` branch of the calling function.  Every native call and
store write is also recorded in an event log so that ordering claims
("persist before restore", "no native operation issued") can be stated.
-/

/-- Window size, from the `WindowSize` interface. -/
structure WindowSize where
  width : Int
  height : Int
deriving DecidableEq, Repr

/-- Window position, from the `WindowPosition` interface. -/
structure WindowPosition where
  x : Int
  y : Int
deriving DecidableEq, Repr

/-- A window geometry snapshot, from the `WindowState` interface
(`{ size, position }`). -/
structure WindowState where
  size : WindowSize
  position : WindowPosition
deriving DecidableEq, Repr

/-- The two window modes of the application (`Normal` editor window vs.
transparent `Compare` overlay).  In the source the mode is the Boolean
React state `isCompareMode`. -/
inductive Mode where
  | Normal
  | Compare
deriving DecidableEq, Repr

/-- Storage key `STORAGE_KEYS.MAIN_WINDOW_STATE`. -/
def MAIN_WINDOW_STATE : String := "pixels_main_window_state"

/-- Storage key `STORAGE_KEYS.COMPARE_WINDOW_STATE`. -/
def COMPARE_WINDOW_STATE : String := "pixels_compare_window_state"

/-- The persistent key-value store, restricted to the window-geometry
entries the window cache reads and writes.  `none` for a key means the key
was never written (first run). -/
def Store : Type := String → Option WindowState

/-- The function `StorageService.set key value`: overwrites the entry under `key`
(`store.set` + `store.save`, or `localStorage.setItem`).  Its `catch`
swallows store errors, so at this level the write is total. -/
def StorageService.set (s : Store) (key : String) (value : WindowState) : Store :=
  fun k => if k = key then some value else s k

/-- The function `StorageService.get key`: returns the stored value or `null`
(`store.get`, or `localStorage.getItem` + parse).  A geometry object is
always truthy, so the `value || null` coercion in the source is the
identity here. -/
def StorageService.get (s : Store) (key : String) : Option WindowState :=
  s key

/-- The store of a fresh install: no key has ever been written. -/
def emptyStore : Store := fun _ => none

/-- The storage key used by the window cache for a mode:
`pixels_main_window_state` for `Normal`, `pixels_compare_window_state`
for `Compare`. -/
def storageKey : Mode → String
  | Mode.Normal => MAIN_WINDOW_STATE
  | Mode.Compare => COMPARE_WINDOW_STATE

/-- The function `saveState(mode, geometry)` of the window cache:
`saveMainWindowState` / `saveCompareWindowState` both delegate to
`storageService.set` at their mode's key. -/
def saveState (m : Mode) (g : WindowState) (s : Store) : Store :=
  StorageService.set s (storageKey m) g

/-- The function `loadState(mode)` of the window cache: `loadMainWindowState` /
`loadCompareWindowState` both delegate to `storageService.get` at their
mode's key and return `state || null`. -/
def loadState (m : Mode) (s : Store) : Option WindowState :=
  StorageService.get s (storageKey m)

/-- Apply a list of raw store writes in order (left to right). -/
def applyWrites (writes : List (String × WindowState)) (s : Store) : Store :=
  writes.foldl (fun acc kv => StorageService.set acc kv.1 kv.2) s

/-- Observable operations issued by the window cache: native window calls
(through Tauri `invoke`) and persistent store writes. -/
inductive Event where
  | getWindowSize
  | getWindowPosition
  | setWindowSize (width height : Int)
  | setWindowPosition (x y : Int)
  | setAlwaysOnTop (value : Bool)
  | storeWrite (key : String) (value : WindowState)
deriving DecidableEq, Repr

/-- The process-wide state the window cache and the App handlers act on:
the live native window, the persistent store, the hook's `mainWindowState`
React state, the native always-on-top flag, an event log, and the schedule
of outcomes for the pending native calls (`[]` = all succeed). -/
structure World where
  isTauri : Bool
  live : WindowState
  store : Store
  mainWindowState : Option WindowState
  alwaysOnTop : Bool
  events : List Event
  sched : List Bool

/-- Consume the outcome of the next native call from the schedule; an
exhausted schedule means success. -/
def takeOutcome (w : World) : Bool × World :=
  match w.sched with
  | [] => (true, w)
  | b :: rest => (b, { w with sched := rest })

/-- The function `await invoke('get_window_size')`: returns `(width, height)` of the
live window, or `none` when the native call rejects. -/
def invokeGetWindowSize (w : World) : Option (Int × Int) × World :=
  let ok := (takeOutcome w).1
  let w1 := (takeOutcome w).2
  let w2 := { w1 with events := w1.events ++ [Event.getWindowSize] }
  (if ok then some (w2.live.size.width, w2.live.size.height) else none, w2)

/-- The function `await invoke('get_window_position')`: returns `(x, y)` of the live
window, or `none` when the native call rejects. -/
def invokeGetWindowPosition (w : World) : Option (Int × Int) × World :=
  let ok := (takeOutcome w).1
  let w1 := (takeOutcome w).2
  let w2 := { w1 with events := w1.events ++ [Event.getWindowPosition] }
  (if ok then some (w2.live.position.x, w2.live.position.y) else none, w2)

/-- The function `await invoke('set_window_size', {width, height})`: on success the live
window's size becomes `(width, height)`; a rejection leaves it unchanged. -/
def invokeSetWindowSize (width height : Int) (w : World) : Bool × World :=
  let ok := (takeOutcome w).1
  let w1 := (takeOutcome w).2
  let w2 := { w1 with events := w1.events ++ [Event.setWindowSize width height] }
  if ok then (true, { w2 with live := { w2.live with size := ⟨width, height⟩ } })
  else (false, w2)

/-- The function `await invoke('set_window_position', {x, y})`: on success the live
window's position becomes `(x, y)`; a rejection leaves it unchanged. -/
def invokeSetWindowPosition (x y : Int) (w : World) : Bool × World :=
  let ok := (takeOutcome w).1
  let w1 := (takeOutcome w).2
  let w2 := { w1 with events := w1.events ++ [Event.setWindowPosition x y] }
  if ok then (true, { w2 with live := { w2.live with position := ⟨x, y⟩ } })
  else (false, w2)

/-- The function `await invoke('set_always_on_top', {alwaysOnTop})`: on success the
native always-on-top flag becomes `value`; a rejection leaves it
unchanged. -/
def invokeSetAlwaysOnTop (value : Bool) (w : World) : Bool × World :=
  let ok := (takeOutcome w).1
  let w1 := (takeOutcome w).2
  let w2 := { w1 with events := w1.events ++ [Event.setAlwaysOnTop value] }
  if ok then (true, { w2 with alwaysOnTop := value }) else (false, w2)

/-- The function `saveMainWindowState(state)` of the hook: sets the `mainWindowState`
React state and writes the geometry under the main-window key. -/
def saveMainWindowState (st : WindowState) (w : World) : World :=
  { w with mainWindowState := some st,
           store := StorageService.set w.store MAIN_WINDOW_STATE st,
           events := w.events ++ [Event.storeWrite MAIN_WINDOW_STATE st] }

/-- The function `saveCompareWindowState(state)` of the hook: writes the geometry under
the compare-window key (no React state is kept for it). -/
def saveCompareWindowState (st : WindowState) (w : World) : World :=
  { w with store := StorageService.set w.store COMPARE_WINDOW_STATE st,
           events := w.events ++ [Event.storeWrite COMPARE_WINDOW_STATE st] }

/-- The function `loadCompareWindowState()` of the hook: reads the compare-window key;
its `catch` returns `null`, and `state || null` is the identity on a
geometry object. -/
def loadCompareWindowState (w : World) : Option WindowState :=
  StorageService.get w.store COMPARE_WINDOW_STATE

/-- The function `enterCompareMode()` of `useWindowCache` (src/hooks/useWindowCache.ts /
the hook embedded in useTransparentMode.ts): outside Tauri it returns
`true` with no effect; otherwise it queries the live geometry, saves it as
the main-window state, then applies the cached compare geometry if
present, or sets width 750 with the captured height (no position change)
if absent.  Any native rejection lands in `catch`, which returns `false`
with all effects so far kept. -/
def enterCompareMode (w : World) : Bool × World :=
  if !w.isTauri then (true, w)
  else
    match invokeGetWindowSize w with
    | (none, w1) => (false, w1)
    | (some (currentWidth, currentHeight), w1) =>
      match invokeGetWindowPosition w1 with
      | (none, w2) => (false, w2)
      | (some (currentX, currentY), w2) =>
        let current : WindowState :=
          ⟨⟨currentWidth, currentHeight⟩, ⟨currentX, currentY⟩⟩
        let w3 := saveMainWindowState current w2
        match loadCompareWindowState w3 with
        | some cached =>
          match invokeSetWindowSize cached.size.width cached.size.height w3 with
          | (false, w4) => (false, w4)
          | (true, w4) =>
            match invokeSetWindowPosition cached.position.x cached.position.y w4 with
            | (false, w5) => (false, w5)
            | (true, w5) => (true, w5)
        | none =>
          match invokeSetWindowSize 750 currentHeight w3 with
          | (false, w4) => (false, w4)
          | (true, w4) => (true, w4)

/-- The function `exitCompareMode()` of `useWindowCache`: outside Tauri it returns
`undefined` (modelled `none`) with no effect; otherwise it queries the
live geometry, saves it as the compare-window state, then restores the
`mainWindowState` geometry if one is held.  A native rejection lands in
`catch`, which returns `false` with all effects so far kept.  The world
after the compare-key save (`w3` in the hook) is written out in full at
each of its uses. -/
def exitCompareMode (w : World) : Option Bool × World :=
  if !w.isTauri then (none, w)
  else
    match invokeGetWindowSize w with
    | (none, w1) => (some false, w1)
    | (some (currentWidth, currentHeight), w1) =>
      match invokeGetWindowPosition w1 with
      | (none, w2) => (some false, w2)
      | (some (currentX, currentY), w2) =>
        match (saveCompareWindowState
          ⟨⟨currentWidth, currentHeight⟩, ⟨currentX, currentY⟩⟩ w2).mainWindowState with
        | some m =>
          match invokeSetWindowSize m.size.width m.size.height
              (saveCompareWindowState
                ⟨⟨currentWidth, currentHeight⟩, ⟨currentX, currentY⟩⟩ w2) with
          | (false, w4) => (some false, w4)
          | (true, w4) =>
            match invokeSetWindowPosition m.position.x m.position.y w4 with
            | (false, w5) => (some false, w5)
            | (true, w5) => (some true, w5)
        | none =>
          (some true, saveCompareWindowState
            ⟨⟨currentWidth, currentHeight⟩, ⟨currentX, currentY⟩⟩ w2)

/-- The function `toggleAlwaysOnTop` of `useWindowManager`: flips the hook's
`alwaysOnTop` React state through `set_always_on_top`; a native rejection
lands in `catch` and the React state keeps its old value. -/
def toggleAlwaysOnTop (alwaysOnTopState : Bool) (w : World) : Bool × World :=
  let newValue := !alwaysOnTopState
  if w.isTauri then
    if (invokeSetAlwaysOnTop newValue w).1
    then (newValue, (invokeSetAlwaysOnTop newValue w).2)
    else (alwaysOnTopState, (invokeSetAlwaysOnTop newValue w).2)
  else (newValue, w)

/-- A selected image as the App holds it (`ImageData`); bytes are modelled
as a list. -/
structure ImageData where
  name : String
  file : List Nat
deriving DecidableEq, Repr

/-- The App-level React state relevant to the mode controller:
`selectedImage` and `isCompareMode` (the `ModeState`: `false` = Normal,
`true` = Compare). -/
structure AppState where
  selectedImage : Option ImageData
  isCompareMode : Bool
deriving DecidableEq, Repr

/-- The function `handleEnterCompareMode` of App.tsx: does nothing without a selected
image; otherwise runs `enterCompareMode()` and switches to Compare only
when it reported success. -/
def handleEnterCompareMode (app : AppState) (w : World) : AppState × World :=
  match app.selectedImage with
  | none => (app, w)
  | some _ =>
    if (enterCompareMode w).1
    then ({ app with isCompareMode := true }, (enterCompareMode w).2)
    else (app, (enterCompareMode w).2)

/-- The function `handleExitCompareMode` of App.tsx: awaits `exitCompareMode()` and then
sets `isCompareMode` to `false` unconditionally, ignoring the returned
success signal. -/
def handleExitCompareMode (app : AppState) (w : World) : AppState × World :=
  ({ app with isCompareMode := false }, (exitCompareMode w).2)

/-- Recognizer for `set_always_on_top` events. -/
def isFlagEvent : Event → Bool
  | Event.setAlwaysOnTop _ => true
  | _ => false

/-- A record of the `recentImages` React state (`RecentImage`): image id,
name, byte payload and last-used timestamp. -/
structure RecentImage where
  id : String
  name : String
  file : List Nat
  lastUsed : Nat
deriving DecidableEq, Repr

/-- The function `generateImageId(name, fileData)`: the image id is the file name and
the byte length joined by an underscore. -/
def generateImageId (name : String) (fileData : List Nat) : String :=
  name ++ "_" ++ toString fileData.length

/-- The function `addToRecentImages(image)` at timestamp `now`: removes any entry with
the same id, puts the new record first, and keeps at most 10 entries. -/
def addToRecentImages (name : String) (file : List Nat) (now : Nat)
    (prev : List RecentImage) : List RecentImage :=
  let imageId := generateImageId name file
  let filtered := prev.filter (fun img => img.id ≠ imageId)
  let newRecent : RecentImage := ⟨imageId, name, file, now⟩
  (newRecent :: filtered).take 10

/-- The function `handleQuickSwitch(recentImage)` at timestamp `now`: updates the
matching entry's `lastUsed` in place, without reordering and without
persisting. -/
def handleQuickSwitch (name : String) (file : List Nat) (now : Nat)
    (prev : List RecentImage) : List RecentImage :=
  let imageId := generateImageId name file
  prev.map (fun img =>
    if img.id = imageId then { img with lastUsed := now } else img)

/-- The function `saveRecentImagesToStorage(images)`: persists the given records under
the `pixels_recent_images` key (the stored value, field for field). -/
def saveRecentImagesToStorage (images : List RecentImage) :
    Option (List RecentImage) :=
  some images

/-- The function `handleRemoveRecentImage(imageId)`: filters the entry out and persists
the updated list; returns the new list and the persisted snapshot. -/
def handleRemoveRecentImage (imageId : String) (prev : List RecentImage) :
    List RecentImage × Option (List RecentImage) :=
  let updated := prev.filter (fun img => img.id ≠ imageId)
  (updated, saveRecentImagesToStorage updated)

/-- The structural invariant of the recent-images list: at most 10 entries
and no two entries with the same id. -/
def RecentInv (l : List RecentImage) : Prop :=
  l.length ≤ 10 ∧ (l.map RecentImage.id).Nodup

/-- Most-recently-used-first order: `lastUsed` is non-increasing along the
list. -/
def sortedByLastUsed (l : List RecentImage) : Prop :=
  l.Pairwise (fun a b => b.lastUsed ≤ a.lastUsed)

/-- A sample starting world: live window `(1200,800)` at `(100,50)`,
fresh store, inside Tauri, no pending native failures. -/
def w1200 : World :=
  World.mk true ⟨⟨1200, 800⟩, ⟨100, 50⟩⟩ emptyStore none false [] []

/-- A sample world already in compare mode: live `(750,800)` at `(100,50)`,
main geometry cached in the hook, whose next native call rejects. -/
def wCompare750 : World :=
  World.mk true ⟨⟨750, 800⟩, ⟨100, 50⟩⟩ emptyStore
    (some ⟨⟨1200, 800⟩, ⟨100, 50⟩⟩) false [] [false]

/-- A sample world in normal mode whose first native call rejects. -/
def wEnterFail : World :=
  World.mk true ⟨⟨1200, 800⟩, ⟨100, 50⟩⟩ emptyStore none false [] [false]

/-- A sample App state in compare mode with an image selected. -/
def appCompare : AppState :=
  AppState.mk (some ⟨"design.png", [0, 1, 2]⟩) true

/-- A sample App state in normal mode with an image selected. -/
def appNormal : AppState :=
  AppState.mk (some ⟨"design.png", [0, 1, 2]⟩) false

theorem storageKey_injective : storageKey Mode.Normal ≠ storageKey Mode.Compare := by
  simp [storageKey, MAIN_WINDOW_STATE, COMPARE_WINDOW_STATE]

theorem compare_key_ne_main_key : COMPARE_WINDOW_STATE ≠ MAIN_WINDOW_STATE := by
  decide

theorem StorageService.get_set_same (s : Store) (k : String) (v : WindowState) :
    StorageService.get (StorageService.set s k v) k = some v := by
  simp [StorageService.get, StorageService.set]

theorem StorageService.get_set_other (s : Store) (k k' : String) (v : WindowState)
    (h : k ≠ k') : StorageService.get (StorageService.set s k' v) k = StorageService.get s k := by
  simp [StorageService.get, StorageService.set, h]

/-- Claim C4: For every geometry `G` and every mode, `saveState(mode, G)`
followed by `loadState(mode)` returns exactly `G`, no matter which writes
to *other* keys (in particular the other mode's key) happen in between. -/
theorem saveState_loadState_roundtrip (m : Mode) (G : WindowState) (s : Store)
    (writes : List (String × WindowState))
    (hw : ∀ kv ∈ writes, kv.1 ≠ storageKey m) :
    loadState m (applyWrites writes (saveState m G s)) = some G := by
  induction writes generalizing s with
  | nil =>
      simp [applyWrites, loadState, saveState, StorageService.get, StorageService.set]
  | cons kv rest ih =>
      have hkv : kv.1 ≠ storageKey m := hw kv (List.mem_cons_self kv rest)
      have hrest : ∀ kv' ∈ rest, kv'.1 ≠ storageKey m :=
        fun kv' h => hw kv' (List.mem_cons_of_mem kv h)
      have hswap : applyWrites (kv :: rest) (saveState m G s)
          = applyWrites rest (StorageService.set (saveState m G s) kv.1 kv.2) := by
        simp [applyWrites]
      rw [hswap]
      have hcomm : StorageService.set (saveState m G s) kv.1 kv.2
          = saveState m G (StorageService.set s kv.1 kv.2) := by
        funext k
        simp only [saveState, StorageService.set]
        by_cases h1 : k = kv.1 <;> by_cases h2 : k = storageKey m <;>
          simp [h1, h2] at * <;> simp_all
      rw [hcomm]
      exact ih (StorageService.set s kv.1 kv.2) hrest

/-- Witness for C4 at a concrete input: save a geometry for `Normal`,
write a different geometry for `Compare` in between, and read back the
saved geometry exactly. -/
theorem saveState_loadState_roundtrip_witness :
    (∀ kv ∈ [((COMPARE_WINDOW_STATE : String), (⟨⟨750, 800⟩, ⟨100, 50⟩⟩ : WindowState))],
        kv.1 ≠ storageKey Mode.Normal) ∧
    loadState Mode.Normal
      (applyWrites [(COMPARE_WINDOW_STATE, ⟨⟨750, 800⟩, ⟨100, 50⟩⟩)]
        (saveState Mode.Normal ⟨⟨1200, 800⟩, ⟨100, 50⟩⟩ emptyStore))
      = some ⟨⟨1200, 800⟩, ⟨100, 50⟩⟩ := by
  constructor
  · intro kv hkv
    simp only [List.mem_singleton] at hkv
    subst hkv
    simp [storageKey, MAIN_WINDOW_STATE, COMPARE_WINDOW_STATE]
  · exact saveState_loadState_roundtrip Mode.Normal ⟨⟨1200, 800⟩, ⟨100, 50⟩⟩ emptyStore
      [(COMPARE_WINDOW_STATE, ⟨⟨750, 800⟩, ⟨100, 50⟩⟩)]
      (by
        intro kv hkv
        simp only [List.mem_singleton] at hkv
        subst hkv
        simp [storageKey, MAIN_WINDOW_STATE, COMPARE_WINDOW_STATE])

/-- Claim C5: `loadState(mode)` on a store where nothing has ever been saved
for that mode returns `none` (absent), not an error and not a fabricated
default geometry: in the embedding the function is total and returns
exactly the store content at the mode's key. -/
theorem loadState_absent (m : Mode) (s : Store) (h : s (storageKey m) = none) :
    loadState m s = none := by
  simp [loadState, StorageService.get, h]

/-- Witness for C5: on a fresh install both modes load as absent. -/
theorem loadState_absent_witness :
    emptyStore (storageKey Mode.Compare) = none ∧
    loadState Mode.Compare emptyStore = none := by
  exact ⟨rfl, loadState_absent Mode.Compare emptyStore rfl⟩

/-- Claim C2: First-ever `enterCompare()` (no compare geometry cached, all
native calls succeed): the live Normal geometry is persisted unchanged
under the main-window key, the live width becomes the fixed default 750
with the captured height, no position change is issued (the event log
gains exactly the two geometry queries, the main-key store write and one
`set_window_size`), and the call reports success. -/
theorem enterCompareMode_first_run (w : World)
    (ht : w.isTauri = true) (hs : w.sched = [])
    (hc : w.store COMPARE_WINDOW_STATE = none) :
    (enterCompareMode w).1 = true ∧
    (enterCompareMode w).2.store MAIN_WINDOW_STATE = some w.live ∧
    (enterCompareMode w).2.mainWindowState = some w.live ∧
    (enterCompareMode w).2.live
      = ⟨⟨750, w.live.size.height⟩, w.live.position⟩ ∧
    (enterCompareMode w).2.events
      = w.events ++ [Event.getWindowSize, Event.getWindowPosition,
          Event.storeWrite MAIN_WINDOW_STATE w.live,
          Event.setWindowSize 750 w.live.size.height] := by
  obtain ⟨tauri, ⟨⟨lw, lh⟩, ⟨lx, ly⟩⟩, store, mws, aot, ev, sched⟩ := w
  simp only at ht hs hc
  subst ht hs
  simp [enterCompareMode, invokeGetWindowSize, invokeGetWindowPosition,
    invokeSetWindowSize, takeOutcome, saveMainWindowState,
    loadCompareWindowState, StorageService.get, StorageService.set,
    compare_key_ne_main_key, hc]

/-- Witness for C2 at the spec's concrete scenario: live `(1200,800)` at
`(100,50)`, fresh store. -/
theorem enterCompareMode_first_run_witness :
    (w1200.isTauri = true) ∧
    (enterCompareMode w1200).1 = true ∧
    (enterCompareMode w1200).2.store MAIN_WINDOW_STATE
      = some ⟨⟨1200, 800⟩, ⟨100, 50⟩⟩ ∧
    (enterCompareMode w1200).2.live = ⟨⟨750, 800⟩, ⟨100, 50⟩⟩ := by
  have h := enterCompareMode_first_run w1200 rfl rfl rfl
  exact ⟨rfl, h.1, h.2.1, h.2.2.2.1⟩

/-- Claim C1: With no native failures and no intervening window moves, an
`enterCompare()` immediately followed by `exitCompare()` succeeds, sets
the live window geometry back to exactly the pre-enter geometry, and the
exit persists the compare-mode geometry (the live geometry left by the
enter) under the compare key before issuing the restoring
`set_window_size` / `set_window_position` calls — the event log of the
exit is exactly the two queries, the compare-key store write, and then
the two restore mutations. -/
theorem enter_exit_roundtrip (w : World)
    (ht : w.isTauri = true) (hs : w.sched = []) :
    (enterCompareMode w).1 = true ∧
    (exitCompareMode (enterCompareMode w).2).1 = some true ∧
    (exitCompareMode (enterCompareMode w).2).2.live = w.live ∧
    (exitCompareMode (enterCompareMode w).2).2.store COMPARE_WINDOW_STATE
      = some (enterCompareMode w).2.live ∧
    (exitCompareMode (enterCompareMode w).2).2.events
      = (enterCompareMode w).2.events
        ++ [Event.getWindowSize, Event.getWindowPosition,
            Event.storeWrite COMPARE_WINDOW_STATE (enterCompareMode w).2.live,
            Event.setWindowSize w.live.size.width w.live.size.height,
            Event.setWindowPosition w.live.position.x w.live.position.y] := by
  obtain ⟨tauri, ⟨⟨lw, lh⟩, ⟨lx, ly⟩⟩, store, mws, aot, ev, sched⟩ := w
  simp only at ht hs
  subst ht hs
  cases hcs : store COMPARE_WINDOW_STATE with
  | none =>
      simp [enterCompareMode, exitCompareMode, invokeGetWindowSize,
        invokeGetWindowPosition, invokeSetWindowSize, invokeSetWindowPosition,
        takeOutcome, saveMainWindowState, saveCompareWindowState,
        loadCompareWindowState, StorageService.get, StorageService.set,
        compare_key_ne_main_key, hcs]
  | some cached =>
      obtain ⟨⟨cw, ch⟩, ⟨cx, cy⟩⟩ := cached
      simp [enterCompareMode, exitCompareMode, invokeGetWindowSize,
        invokeGetWindowPosition, invokeSetWindowSize, invokeSetWindowPosition,
        takeOutcome, saveMainWindowState, saveCompareWindowState,
        loadCompareWindowState, StorageService.get, StorageService.set,
        compare_key_ne_main_key, hcs]

/-- Witness for C1 at the spec's concrete scenario (first round trip from
`(1200,800)` at `(100,50)`). -/
theorem enter_exit_roundtrip_witness :
    (w1200.isTauri = true ∧ w1200.sched = []) ∧
    ((enterCompareMode w1200).1 = true ∧
     (exitCompareMode (enterCompareMode w1200).2).1 = some true ∧
     (exitCompareMode (enterCompareMode w1200).2).2.live = w1200.live ∧
     (exitCompareMode (enterCompareMode w1200).2).2.store COMPARE_WINDOW_STATE
       = some (enterCompareMode w1200).2.live ∧
     (exitCompareMode (enterCompareMode w1200).2).2.events
       = (enterCompareMode w1200).2.events
         ++ [Event.getWindowSize, Event.getWindowPosition,
             Event.storeWrite COMPARE_WINDOW_STATE (enterCompareMode w1200).2.live,
             Event.setWindowSize w1200.live.size.width w1200.live.size.height,
             Event.setWindowPosition w1200.live.position.x w1200.live.position.y]) :=
  ⟨⟨rfl, rfl⟩, enter_exit_roundtrip w1200 rfl rfl⟩

/-- Claim C7: `handleEnterCompareMode` with no selected image is a complete
no-op: the App state (including `isCompareMode`) and the world (store,
live window, event log) are returned unchanged, so no store write occurs
and no native window operation is issued. -/
theorem handleEnterCompareMode_no_image (app : AppState) (w : World)
    (h : app.selectedImage = none) :
    handleEnterCompareMode app w = (app, w) := by
  simp [handleEnterCompareMode, h]

/-- Witness for C7 at a concrete input. -/
theorem handleEnterCompareMode_no_image_witness :
    (AppState.mk none false).selectedImage = none ∧
    handleEnterCompareMode (AppState.mk none false) w1200
      = (AppState.mk none false, w1200) :=
  ⟨rfl, handleEnterCompareMode_no_image (AppState.mk none false) w1200 rfl⟩

theorem handleEnterCompareMode_of_fail (app : AppState) (w : World)
    (hfail : (enterCompareMode w).1 = false) :
    (handleEnterCompareMode app w).1 = app := by
  cases h : app.selectedImage <;> simp [handleEnterCompareMode, h, hfail]

/-- Claim C3, counterexample: A native failure during `exitCompare()` does
*not* leave the `ModeState` at its pre-call value: from Compare, with the
first native call rejecting, `exitCompareMode` reports failure (`false`)
yet `handleExitCompareMode` still switches the state to Normal. -/
theorem exit_failure_changes_mode_counterexample :
    appCompare.isCompareMode = true ∧
    (exitCompareMode wCompare750).1 = some false ∧
    (handleExitCompareMode appCompare wCompare750).1.isCompareMode = false :=
  ⟨rfl, rfl, rfl⟩

/-- Claim C3, amended: On a native-window failure the controller returns a
failure signal, and for `enterCompare()` the `ModeState` is indeed left
unchanged; but `handleExitCompareMode` sets the `ModeState` to Normal
unconditionally, whether or not `exitCompareMode` failed, so a failed
exit still transitions to Normal instead of staying in Compare. -/
theorem transition_failure_handling (app : AppState) (w : World)
    (hfail : (enterCompareMode w).1 = false) :
    (handleEnterCompareMode app w).1 = app ∧
    (handleExitCompareMode app w).1.isCompareMode = false :=
  ⟨handleEnterCompareMode_of_fail app w hfail, rfl⟩

/-- Witness for the amended C3 at a concrete input whose first native call
rejects. -/
theorem transition_failure_handling_witness :
    (enterCompareMode wEnterFail).1 = false ∧
    ((handleEnterCompareMode appNormal wEnterFail).1 = appNormal ∧
     (handleExitCompareMode appNormal wEnterFail).1.isCompareMode = false) :=
  ⟨rfl, transition_failure_handling appNormal wEnterFail rfl⟩

/-- Claim C6: In `enterCompare()`, the persisted main-window write is not
rolled back: when both geometry queries succeed and a later native call
fails (failure schedule `true :: true :: false :: _`), the call reports
failure and the App stays in its pre-call state (Normal), yet the store's
main-window key already holds the live-geometry snapshot. -/
theorem enterCompareMode_no_rollback (app : AppState) (w : World) (rest : List Bool)
    (ht : w.isTauri = true) (hs : w.sched = true :: true :: false :: rest) :
    (enterCompareMode w).1 = false ∧
    (enterCompareMode w).2.store MAIN_WINDOW_STATE = some w.live ∧
    (enterCompareMode w).2.mainWindowState = some w.live ∧
    (handleEnterCompareMode app w).1 = app := by
  obtain ⟨tauri, ⟨⟨lw, lh⟩, ⟨lx, ly⟩⟩, store, mws, aot, ev, sched⟩ := w
  simp only at ht hs
  subst ht hs
  have hcore :
      (enterCompareMode (World.mk true ⟨⟨lw, lh⟩, ⟨lx, ly⟩⟩ store mws aot ev
        (true :: true :: false :: rest))).1 = false ∧
      (enterCompareMode (World.mk true ⟨⟨lw, lh⟩, ⟨lx, ly⟩⟩ store mws aot ev
        (true :: true :: false :: rest))).2.store MAIN_WINDOW_STATE
        = some ⟨⟨lw, lh⟩, ⟨lx, ly⟩⟩ ∧
      (enterCompareMode (World.mk true ⟨⟨lw, lh⟩, ⟨lx, ly⟩⟩ store mws aot ev
        (true :: true :: false :: rest))).2.mainWindowState
        = some ⟨⟨lw, lh⟩, ⟨lx, ly⟩⟩ := by
    cases hcs : store COMPARE_WINDOW_STATE with
    | none =>
        simp [enterCompareMode, invokeGetWindowSize, invokeGetWindowPosition,
          invokeSetWindowSize, takeOutcome, saveMainWindowState,
          loadCompareWindowState, StorageService.get, StorageService.set,
          compare_key_ne_main_key, hcs]
    | some cached =>
        obtain ⟨⟨cw, ch⟩, ⟨cx, cy⟩⟩ := cached
        simp [enterCompareMode, invokeGetWindowSize, invokeGetWindowPosition,
          invokeSetWindowSize, takeOutcome, saveMainWindowState,
          loadCompareWindowState, StorageService.get, StorageService.set,
          compare_key_ne_main_key, hcs]
  exact ⟨hcore.1, hcore.2.1, hcore.2.2,
    handleEnterCompareMode_of_fail app _ hcore.1⟩

/-- Witness for C6: concrete world whose `set_window_size` call rejects
after both queries succeeded. -/
theorem enterCompareMode_no_rollback_witness :
    ((World.mk true ⟨⟨1200, 800⟩, ⟨100, 50⟩⟩ emptyStore none false []
        [true, true, false]).isTauri = true) ∧
    ((enterCompareMode (World.mk true ⟨⟨1200, 800⟩, ⟨100, 50⟩⟩ emptyStore none false []
        [true, true, false])).1 = false ∧
     (enterCompareMode (World.mk true ⟨⟨1200, 800⟩, ⟨100, 50⟩⟩ emptyStore none false []
        [true, true, false])).2.store MAIN_WINDOW_STATE
        = some ⟨⟨1200, 800⟩, ⟨100, 50⟩⟩ ∧
     (enterCompareMode (World.mk true ⟨⟨1200, 800⟩, ⟨100, 50⟩⟩ emptyStore none false []
        [true, true, false])).2.mainWindowState = some ⟨⟨1200, 800⟩, ⟨100, 50⟩⟩ ∧
     (handleEnterCompareMode appNormal
        (World.mk true ⟨⟨1200, 800⟩, ⟨100, 50⟩⟩ emptyStore none false []
          [true, true, false])).1 = appNormal) :=
  ⟨rfl, enterCompareMode_no_rollback appNormal
    (World.mk true ⟨⟨1200, 800⟩, ⟨100, 50⟩⟩ emptyStore none false []
      [true, true, false]) [] rfl rfl⟩

theorem takeOutcome_fields (w : World) :
    (takeOutcome w).2.alwaysOnTop = w.alwaysOnTop ∧
    (takeOutcome w).2.events = w.events := by
  cases h : w.sched <;> simp [takeOutcome, h]

theorem invokeGetWindowSize_flag (w : World) :
    (invokeGetWindowSize w).2.alwaysOnTop = w.alwaysOnTop ∧
    (invokeGetWindowSize w).2.events.countP isFlagEvent
      = w.events.countP isFlagEvent := by
  have h := takeOutcome_fields w
  simp [invokeGetWindowSize, h.1, h.2, List.countP_append, List.countP_cons,
    List.countP_nil, isFlagEvent]

theorem invokeGetWindowPosition_flag (w : World) :
    (invokeGetWindowPosition w).2.alwaysOnTop = w.alwaysOnTop ∧
    (invokeGetWindowPosition w).2.events.countP isFlagEvent
      = w.events.countP isFlagEvent := by
  have h := takeOutcome_fields w
  simp [invokeGetWindowPosition, h.1, h.2, List.countP_append, List.countP_cons,
    List.countP_nil, isFlagEvent]

theorem invokeSetWindowSize_flag (a b : Int) (w : World) :
    (invokeSetWindowSize a b w).2.alwaysOnTop = w.alwaysOnTop ∧
    (invokeSetWindowSize a b w).2.events.countP isFlagEvent
      = w.events.countP isFlagEvent := by
  have h := takeOutcome_fields w
  cases hok : (takeOutcome w).1 <;>
    simp [invokeSetWindowSize, hok, h.1, h.2, List.countP_append,
      List.countP_cons, List.countP_nil, isFlagEvent]

theorem invokeSetWindowPosition_flag (a b : Int) (w : World) :
    (invokeSetWindowPosition a b w).2.alwaysOnTop = w.alwaysOnTop ∧
    (invokeSetWindowPosition a b w).2.events.countP isFlagEvent
      = w.events.countP isFlagEvent := by
  have h := takeOutcome_fields w
  cases hok : (takeOutcome w).1 <;>
    simp [invokeSetWindowPosition, hok, h.1, h.2, List.countP_append,
      List.countP_cons, List.countP_nil, isFlagEvent]

theorem saveCompareWindowState_flag (st : WindowState) (w : World) :
    (saveCompareWindowState st w).alwaysOnTop = w.alwaysOnTop ∧
    (saveCompareWindowState st w).events.countP isFlagEvent
      = w.events.countP isFlagEvent := by
  simp [saveCompareWindowState, List.countP_append, List.countP_cons,
    List.countP_nil, isFlagEvent]

theorem exitCompareMode_flag (w : World) :
    (exitCompareMode w).2.alwaysOnTop = w.alwaysOnTop ∧
    (exitCompareMode w).2.events.countP isFlagEvent
      = w.events.countP isFlagEvent := by
  unfold exitCompareMode
  split
  · exact ⟨rfl, rfl⟩
  · split
    · rename_i w1 heq
      have h1 := invokeGetWindowSize_flag w
      rw [heq] at h1
      exact h1
    · rename_i cw ch w1 heq
      have h1 := invokeGetWindowSize_flag w
      rw [heq] at h1
      split
      · rename_i w2 heq2
        have h2 := invokeGetWindowPosition_flag w1
        rw [heq2] at h2
        exact ⟨h2.1.trans h1.1, h2.2.trans h1.2⟩
      · rename_i cx cy w2 heq2
        have h2 := invokeGetWindowPosition_flag w1
        rw [heq2] at h2
        have h3 := saveCompareWindowState_flag ⟨⟨cw, ch⟩, ⟨cx, cy⟩⟩ w2
        split
        · rename_i m hm
          split
          · rename_i w4 heq3
            have h4 := invokeSetWindowSize_flag m.size.width m.size.height
              (saveCompareWindowState ⟨⟨cw, ch⟩, ⟨cx, cy⟩⟩ w2)
            rw [heq3] at h4
            exact ⟨h4.1.trans (h3.1.trans (h2.1.trans h1.1)),
              h4.2.trans (h3.2.trans (h2.2.trans h1.2))⟩
          · rename_i w4 heq3
            have h4 := invokeSetWindowSize_flag m.size.width m.size.height
              (saveCompareWindowState ⟨⟨cw, ch⟩, ⟨cx, cy⟩⟩ w2)
            rw [heq3] at h4
            split
            · rename_i w5 heq4
              have h5 := invokeSetWindowPosition_flag m.position.x m.position.y w4
              rw [heq4] at h5
              exact ⟨h5.1.trans (h4.1.trans (h3.1.trans (h2.1.trans h1.1))),
                h5.2.trans (h4.2.trans (h3.2.trans (h2.2.trans h1.2)))⟩
            · rename_i w5 heq4
              have h5 := invokeSetWindowPosition_flag m.position.x m.position.y w4
              rw [heq4] at h5
              exact ⟨h5.1.trans (h4.1.trans (h3.1.trans (h2.1.trans h1.1))),
                h5.2.trans (h4.2.trans (h3.2.trans (h2.2.trans h1.2)))⟩
        · rename_i hm
          exact ⟨h3.1.trans (h2.1.trans h1.1), h3.2.trans (h2.2.trans h1.2)⟩

/-- Claim C8, counterexample: A completed `exitCompare()` does *not* reset
the native always-on-top flag: enter compare mode, enable always-on-top
from the compare window, exit successfully — the native flag is still
`true` after the exit instead of its default `false`. -/
theorem exit_flags_not_reset_counterexample :
    (toggleAlwaysOnTop false (enterCompareMode w1200).2).2.alwaysOnTop = true ∧
    (exitCompareMode (toggleAlwaysOnTop false (enterCompareMode w1200).2).2).1
      = some true ∧
    (exitCompareMode (toggleAlwaysOnTop false (enterCompareMode w1200).2).2).2.alwaysOnTop
      = true :=
  ⟨rfl, rfl, rfl⟩

/-- Claim C8, amended: `handleExitCompareMode` issues no native flag
mutation at all: it never calls `set_always_on_top` (the count of flag
events in the log is unchanged) and leaves the native always-on-top flag
at whatever value it had in Compare mode.  (The compare-mode CSS classes
are removed when the compare window unmounts; no click-through flag
exists anywhere in the code.) -/
theorem handleExitCompareMode_flags (app : AppState) (w : World) :
    (handleExitCompareMode app w).2.alwaysOnTop = w.alwaysOnTop ∧
    (handleExitCompareMode app w).2.events.countP isFlagEvent
      = w.events.countP isFlagEvent :=
  exitCompareMode_flag w

theorem addToRecentImages_head (name : String) (file : List Nat) (now : Nat)
    (prev : List RecentImage) :
    (addToRecentImages name file now prev).head?
      = some ⟨generateImageId name file, name, file, now⟩ := by
  simp only [addToRecentImages]
  rw [show (10 : Nat) = 9 + 1 from rfl, List.take_succ_cons]
  rfl

theorem filter_ne_id_countP (imageId : String) (l : List RecentImage) :
    (l.filter (fun img => img.id ≠ imageId)).countP
      (fun img => img.id = imageId) = 0 := by
  rw [List.countP_eq_zero]
  intro a ha
  have h := (List.mem_filter.mp ha).2
  simp only [ne_eq, decide_not, Bool.not_eq_true', decide_eq_false_iff_not] at h
  simpa using h

theorem countP_id_addToRecentImages (name : String) (file : List Nat) (now : Nat)
    (l : List RecentImage) :
    (addToRecentImages name file now l).countP
      (fun img => img.id = generateImageId name file) = 1 := by
  simp only [addToRecentImages]
  rw [show (10 : Nat) = 9 + 1 from rfl, List.take_succ_cons, List.countP_cons]
  have h0 := filter_ne_id_countP (generateImageId name file) l
  have hle := List.Sublist.countP_le (fun img => img.id = generateImageId name file)
    (List.take_sublist 9 (l.filter (fun img => img.id ≠ generateImageId name file)))
  rw [h0] at hle
  have h1 : (List.take 9 (l.filter (fun img => img.id ≠ generateImageId name file))).countP
      (fun img => img.id = generateImageId name file) = 0 := Nat.le_zero.mp hle
  rw [h1]
  simp

theorem length_filter_ne_add_countP (imageId : String) (l : List RecentImage) :
    (l.filter (fun img => img.id ≠ imageId)).length
      + l.countP (fun img => img.id = imageId) = l.length := by
  induction l with
  | nil => rfl
  | cons a t ih =>
      by_cases h : a.id = imageId <;>
        simp [List.filter_cons, List.countP_cons, h] at ih ⊢ <;> omega

/-- Claim C9, counterexample: The persisted recent-images list is *not*
always ordered by last-used time: import `a`, `b`, `c` (timestamps 1,2,3),
quick-switch back to `a` at time 4 (which updates `lastUsed` in place
without reordering), then remove `c` — the snapshot persisted by the
removal is `[b(2), a(4)]`, whose most recently used entry is last. -/
theorem recent_images_order_counterexample :
    (handleRemoveRecentImage (generateImageId "c" [0])
        (handleQuickSwitch "a" [0] 4
          (addToRecentImages "c" [0] 3
            (addToRecentImages "b" [0] 2
              (addToRecentImages "a" [0] 1 []))))).2
      = some [⟨"b_1", "b", [0], 2⟩, ⟨"a_1", "a", [0], 4⟩] ∧
    ¬ sortedByLastUsed [⟨"b_1", "b", [0], 2⟩, ⟨"a_1", "a", [0], 4⟩] := by
  constructor
  · rfl
  · intro h
    have h24 := (List.pairwise_cons.mp h).1 ⟨"a_1", "a", [0], 4⟩ (by simp)
    simp at h24

/-- Claim C9, amended: The recent-images list always holds at most 10
entries and at most one entry per image id, and `addToRecentImages` moves
a re-imported image to the front instead of duplicating it.  Imports
(under a non-decreasing clock) and removals also preserve
most-recently-used-first order; `handleQuickSwitch`, however, rewrites an
entry's `lastUsed` in place without reordering (it still preserves the
size and uniqueness invariant), so after a quick switch the list — and
the snapshot persisted by the next save — need not be ordered by
last-used time. -/
theorem recent_images_invariants (prev : List RecentImage) (name : String)
    (file : List Nat) (now : Nat) (removeId : String)
    (hinv : RecentInv prev) :
    RecentInv (addToRecentImages name file now prev) ∧
    RecentInv (handleRemoveRecentImage removeId prev).1 ∧
    RecentInv (handleQuickSwitch name file now prev) ∧
    (addToRecentImages name file now prev).head?
      = some ⟨generateImageId name file, name, file, now⟩ ∧
    (sortedByLastUsed prev → (∀ e ∈ prev, e.lastUsed ≤ now) →
      sortedByLastUsed (addToRecentImages name file now prev)) ∧
    (sortedByLastUsed prev →
      sortedByLastUsed (handleRemoveRecentImage removeId prev).1) := by
  obtain ⟨hlen, hnodup⟩ := hinv
  have hfsub : List.Sublist
      (prev.filter (fun img => img.id ≠ generateImageId name file)) prev :=
    List.filter_sublist prev
  have hrsub : List.Sublist
      (prev.filter (fun img => img.id ≠ removeId)) prev :=
    List.filter_sublist prev
  refine ⟨⟨?_, ?_⟩, ⟨?_, ?_⟩, ⟨?_, ?_⟩, addToRecentImages_head name file now prev,
    ?_, ?_⟩
  · simp only [addToRecentImages]
    rw [List.length_take]
    exact min_le_left _ _
  · simp only [addToRecentImages]
    rw [List.map_take]
    refine List.Nodup.sublist (List.take_sublist _ _) ?_
    simp only [List.map_cons]
    refine List.nodup_cons.mpr ⟨?_, hnodup.sublist (hfsub.map RecentImage.id)⟩
    intro hmem
    obtain ⟨e, he, heq⟩ := List.mem_map.mp hmem
    have h := (List.mem_filter.mp he).2
    simp only [ne_eq, decide_not, Bool.not_eq_true', decide_eq_false_iff_not] at h
    exact h heq
  · exact le_trans (List.length_filter_le _ _) hlen
  · exact hnodup.sublist (hrsub.map RecentImage.id)
  · simpa [handleQuickSwitch] using hlen
  · have hmap : (handleQuickSwitch name file now prev).map RecentImage.id
        = prev.map RecentImage.id := by
      simp only [handleQuickSwitch, List.map_map]
      refine List.map_congr_left ?_
      intro a _
      by_cases h : a.id = generateImageId name file <;> simp [h]
    rw [hmap]
    exact hnodup
  · intro hsorted hle
    simp only [addToRecentImages, sortedByLastUsed] at *
    refine List.Pairwise.sublist (List.take_sublist _ _) ?_
    refine List.pairwise_cons.mpr ⟨?_, List.Pairwise.sublist hfsub hsorted⟩
    intro b hb
    exact hle b (hfsub.subset hb)
  · intro hsorted
    exact List.Pairwise.sublist hrsub hsorted

/-- Witness for the amended C9 at a concrete input. -/
theorem recent_images_invariants_witness :
    RecentInv [] ∧
    (RecentInv (addToRecentImages "a" [0] 1 []) ∧
     RecentInv (handleRemoveRecentImage "x_0" []).1 ∧
     RecentInv (handleQuickSwitch "a" [0] 1 []) ∧
     (addToRecentImages "a" [0] 1 []).head?
       = some ⟨generateImageId "a" [0], "a", [0], 1⟩ ∧
     (sortedByLastUsed [] → (∀ e ∈ ([] : List RecentImage), e.lastUsed ≤ 1) →
       sortedByLastUsed (addToRecentImages "a" [0] 1 [])) ∧
     (sortedByLastUsed [] →
       sortedByLastUsed (handleRemoveRecentImage "x_0" []).1)) :=
  ⟨⟨by simp, List.nodup_nil⟩,
    recent_images_invariants [] "a" [0] 1 "x_0" ⟨by simp, List.nodup_nil⟩⟩

/-- Claim C10: The identity of a recent image is computed from its name and
byte count only: two images with the same name and the same number of
bytes get the same id, and importing the second after the first leaves
exactly one entry with that id (the new one, at the front, carrying the
second image's bytes) and does not grow the list — a replacement, not a
separate entry. -/
theorem image_identity_name_size (name : String) (b1 b2 : List Nat)
    (hlen : b1.length = b2.length) (prev : List RecentImage) (t1 t2 : Nat) :
    generateImageId name b1 = generateImageId name b2 ∧
    (addToRecentImages name b2 t2 (addToRecentImages name b1 t1 prev)).countP
        (fun img => img.id = generateImageId name b1) = 1 ∧
    (addToRecentImages name b2 t2 (addToRecentImages name b1 t1 prev)).head?
      = some ⟨generateImageId name b2, name, b2, t2⟩ ∧
    (addToRecentImages name b2 t2 (addToRecentImages name b1 t1 prev)).length
      = (addToRecentImages name b1 t1 prev).length := by
  have hgid : generateImageId name b1 = generateImageId name b2 := by
    simp [generateImageId, hlen]
  refine ⟨hgid, ?_, addToRecentImages_head name b2 t2 _, ?_⟩
  · rw [hgid]
    exact countP_id_addToRecentImages name b2 t2 _
  · have hl1 : (addToRecentImages name b1 t1 prev).length ≤ 10 := by
      simp only [addToRecentImages]
      rw [List.length_take]
      exact min_le_left _ _
    have hc1 : (addToRecentImages name b1 t1 prev).countP
        (fun img => img.id = generateImageId name b2) = 1 := by
      rw [← hgid]
      exact countP_id_addToRecentImages name b1 t1 prev
    have hfl := length_filter_ne_add_countP (generateImageId name b2)
      (addToRecentImages name b1 t1 prev)
    rw [hc1] at hfl
    conv_lhs => rw [addToRecentImages]
    rw [List.length_take, List.length_cons, hfl]
    exact min_eq_right hl1

/-- Witness for C10 at a concrete input: two one-byte files named `a` with
different contents. -/
theorem image_identity_name_size_witness :
    ([7] : List Nat).length = ([9] : List Nat).length ∧
    (generateImageId "a" [7] = generateImageId "a" [9] ∧
     (addToRecentImages "a" [9] 2 (addToRecentImages "a" [7] 1 [])).countP
         (fun img => img.id = generateImageId "a" [7]) = 1 ∧
     (addToRecentImages "a" [9] 2 (addToRecentImages "a" [7] 1 [])).head?
       = some ⟨generateImageId "a" [9], "a", [9], 2⟩ ∧
     (addToRecentImages "a" [9] 2 (addToRecentImages "a" [7] 1 [])).length
       = (addToRecentImages "a" [7] 1 []).length) :=
  ⟨rfl, image_identity_name_size "a" [7] [9] rfl [] 1 2⟩
